import Mathlib

/-!
# Verification of the creak audio decoding library

Shallow embedding of the format-dispatch and sample-normalization core of
the creak repository (`src/decoder/mod.rs`, `src/decoder/raw.rs`,
`src/decoder/mp3.rs`, `src/decoder/flac.rs`), with theorems settling the
specification claims about it.

Modelling conventions:
* A seekable byte source (`Read + Seek`) is a `Reader`: an immutable byte
  list plus a cursor.  `Reader.read n` deterministically returns
  `min n remaining` bytes (the library relies on `read` filling the buffer
  whenever enough bytes remain); read never fails in the model, so the
  `Err => IOError` arms of the source are unreachable here and the
  `IOError` constructor is kept abstract (no payload).
* Samples are modelled as exact rationals `ℚ`.  The integer-to-`f32`
  casts of the source (`value as f32`, `MAX_VAL = <$t>::MAX as f32`) are
  modelled exactly by `f32RoundInt`, round to nearest with ties to even
  at a 24-bit significand — this matters: `i32::MAX as f32` and
  `i64::MAX as f32` round UP to `2^31` and `2^63`, so the signed minimum
  decodes to exactly `-1` at those widths.  The subsequent `f32`
  division/multiplication/subtraction chain is evaluated in exact
  rational arithmetic; every fact proved below is insensitive to that
  remaining rounding: each asserted equality either concerns an exactly
  representable result (`0`, `±1`, quotients of equal powers of two) or
  is a model-level value (such as `-128/127`) whose distance from the
  constant it is compared against far exceeds the `f32` rounding error
  of those operations.
* The IEEE `f32`/`f64` bit decodings used only by the `Float32`/`Float64`
  raw formats are kept as parameters (`f32val`, `f64val`); no claim
  depends on their values.
-/

/-- A seekable byte source: the byte list never changes, only the cursor. -/
structure Reader where
  data : List Nat
  pos : Nat
deriving Repr, DecidableEq

/-- `Read::read` into an `n`-byte buffer: returns `min n remaining` bytes
and advances the cursor by that many. -/
def Reader.read (r : Reader) (n : Nat) : List Nat × Reader :=
  let bs := (r.data.drop r.pos).take n
  (bs, { r with pos := r.pos + bs.length })

/-- `Seek::seek(SeekFrom::Start(0))` (cannot fail in the model). -/
def Reader.seekStart (r : Reader) : Reader :=
  { r with pos := 0 }

/-- `DecoderError` from `src/decoder/mod.rs` (the `io::Error` payload of
`IOError` is abstracted away). -/
inductive DecoderError where
  | IOError
  | FormatError (msg : String)
  | NoExtension
  | UnsupportedExtension (ext : String)
  | IncompleteData
  | DisabledExtension (extension : String) (feature : String)
deriving Repr, DecidableEq

/-- `Endian` from `src/decoder/mod.rs`. -/
inductive Endian where
  | Big
  | Little
deriving Repr, DecidableEq

/-- `RawSampleFormat` from `src/decoder/mod.rs`. -/
inductive RawSampleFormat where
  | Float32
  | Float64
  | Unsigned8
  | Signed8
  | Unsigned16
  | Signed16
  | Unsigned24
  | Signed24
  | Unsigned32
  | Signed32
  | Unsigned64
  | Signed64
deriving Repr, DecidableEq

/-- `RawAudioSpec` from `src/decoder/mod.rs`. -/
structure RawAudioSpec where
  sample_rate : Nat
  channels : Nat
  sample_format : RawSampleFormat
  endianness : Endian
  start_offset : Nat
  max_frames : Option Nat
deriving Repr, DecidableEq

/-- `AudioFormat` from `src/decoder/mod.rs`. -/
inductive AudioFormat where
  | Wav
  | Vorbis
  | Mp3
  | Flac
  | Raw
deriving Repr, DecidableEq

/-- `AudioInfo` from `src/decoder/mod.rs`. -/
structure AudioInfo where
  sample_rate : Nat
  channels : Nat
  format : AudioFormat
deriving Repr, DecidableEq

/-- `uN::from_be_bytes` on a byte list. -/
def uintBE (bs : List Nat) : Nat :=
  bs.foldl (fun a b => a * 256 + b) 0

/-- `uN::from_le_bytes` on a byte list. -/
def uintLE (bs : List Nat) : Nat :=
  uintBE bs.reverse

/-- Endian-dispatched unsigned decode (`from_be_bytes` / `from_le_bytes`). -/
def uintFromBytes (e : Endian) (bs : List Nat) : Nat :=
  match e with
  | .Big => uintBE bs
  | .Little => uintLE bs

/-- Two's-complement reinterpretation of a `bits`-wide unsigned value, i.e.
`iN::from_be_bytes` / `iN::from_le_bytes` composed with `uintFromBytes`. -/
def toSigned (bits : Nat) (u : Nat) : Int :=
  if u < 2 ^ (bits - 1) then (u : Int) else (u : Int) - 2 ^ bits

/-- Endian-dispatched signed decode of a `size`-byte buffer. -/
def intFromBytes (e : Endian) (size : Nat) (bs : List Nat) : Int :=
  toSigned (8 * size) (uintFromBytes e bs)

/-- One pull of a raw-sample `read_func` (the shared shape of every arm of
`RawDecoder::into_samples`, `src/decoder/raw.rs`): read `n` bytes;
`Ok(0)` ends the stream, a read of exactly `succLen` bytes decodes a
sample via `val`, and any other byte count is `Err(IncompleteData)`.
For every format the source requests and requires the same count
(`n = succLen`) — except the 24-bit arms, which read into `buf[1..3]`
(a 2-byte slice) yet match success against `Ok(3)`. -/
def readStep (n succLen : Nat) (val : List Nat → ℚ) (r : Reader) :
    Option (Except DecoderError ℚ) × Reader :=
  let p := r.read n
  if p.1.length = 0 then (none, p.2)
  else if p.1.length = succLen then (some (.ok (val p.1)), p.2)
  else (some (.error .IncompleteData), p.2)

/-- Number of halvings needed to bring `m` below `2^24` (the width of the
`f32` significand).  The fuel (128 suffices for every value below `2^128`)
only makes the recursion structural. -/
def f32Shift (fuel : Nat) (m : Nat) : Nat :=
  match fuel with
  | 0 => 0
  | fuel + 1 => if m < 2 ^ 24 then 0 else f32Shift fuel (m / 2) + 1

/-- `n as f32` for a natural number `n < 2^128`: round to nearest, ties
to even, at a 24-bit significand, as an exact rational.  For `n < 2^24`
the cast is exact; otherwise the low `s` bits are rounded away
half-to-even on the remaining 24-bit mantissa. -/
def f32RoundPos (n : Nat) : ℚ :=
  let s := f32Shift 128 n
  if s = 0 then (n : ℚ)
  else
    let q := n / 2 ^ s
    let r := n % 2 ^ s
    let half := 2 ^ (s - 1)
    let q' := if half < r ∨ (r = half ∧ q % 2 = 1) then q + 1 else q
    (q' : ℚ) * 2 ^ s

/-- `v as f32` for an integer `v` with `|v| < 2^128` (no overflow in this
range): `f32` rounding is sign-symmetric. -/
def f32RoundInt (v : Int) : ℚ :=
  if 0 ≤ v then f32RoundPos v.toNat else -f32RoundPos (-v).toNat

/-- `MAX_VAL` of the `unsigned` macro arm: `<$t>::MAX as f32` for a
`size`-byte unsigned type.  Exact (`255`, `65535`) at widths 1 and 2; at
widths 4 and 8 the values `2^32 - 1` and `2^64 - 1` are not `f32`
representable and round up to exactly `2^32` and `2^64`. -/
def unsignedMax (size : Nat) : ℚ := f32RoundInt (2 ^ (8 * size) - 1)

/-- `MAX_VAL` of the `signed` macro arm: `<$t>::MAX as f32` for a
`size`-byte signed type.  Exact (`127`, `32767`) at widths 1 and 2; at
widths 4 and 8 the values `2^31 - 1` and `2^63 - 1` are not `f32`
representable and round up to exactly `2^31` and `2^63`. -/
def signedMax (size : Nat) : ℚ := f32RoundInt (2 ^ (8 * size - 1) - 1)

/-- `MAX_U24` from the `Unsigned24` arm: `(1 << 24) + ((1 << 24) - 1)`.
(Note: this equals `2^25 - 1`, not the 24-bit maximum `2^24 - 1`.) -/
def maxU24 : ℚ := 2 ^ 24 + (2 ^ 24 - 1)

/-- `MAX_I24` from the `Signed24` arm: `(1 << 23) + ((1 << 23) - 1)`.
(Note: this equals `2^24 - 1`, not the 24-bit maximum positive value
`2^23 - 1`.) -/
def maxI24 : ℚ := 2 ^ 23 + (2 ^ 23 - 1)

/-- The 5-byte buffer of the 24-bit arms after `read(&mut buf[1..3])`
returned the bytes `bs` (`bs.length ≤ 2`): `buf = [0; 5]` with the read
bytes starting at index 1. -/
def buf24 (bs : List Nat) : List Nat :=
  [0] ++ bs ++ List.replicate (4 - bs.length) 0

/-- Value expression of the `Unsigned24` success arm
(`u32::from_be_bytes` on the indicated buffer slices).  The `as f32`
casts of this expression are left exact here: the arm is unreachable —
the short read makes its `Ok(3)` pattern impossible (see the 24-bit
theorems below), so this value never flows anywhere. -/
def u24val (e : Endian) (bs : List Nat) : ℚ :=
  let buf := buf24 bs
  match e with
  | .Big =>
      (uintBE [buf.getD 0 0, buf.getD 1 0, buf.getD 2 0, buf.getD 3 0] : ℚ)
        / maxU24 * 2 - 1
  | .Little =>
      (uintBE [buf.getD 1 0, buf.getD 2 0, buf.getD 3 0, buf.getD 4 0] : ℚ)
        / maxU24 * 2 - 1

/-- Value expression of the `Signed24` success arm
(`i32::from_be_bytes` on the indicated buffer slices); like `u24val`,
unreachable dead code with the casts left exact. -/
def i24val (e : Endian) (bs : List Nat) : ℚ :=
  let buf := buf24 bs
  match e with
  | .Big =>
      (toSigned 32 (uintBE [buf.getD 0 0, buf.getD 1 0, buf.getD 2 0, buf.getD 3 0]) : ℚ)
        / maxI24
  | .Little =>
      (toSigned 32 (uintBE [buf.getD 1 0, buf.getD 2 0, buf.getD 3 0, buf.getD 4 0]) : ℚ)
        / maxI24

/-- Byte order handed to the IEEE decode: `from_le_bytes bs` equals
`from_be_bytes bs.reverse`, so a single big-endian-order decoder suffices. -/
def byteOrder (e : Endian) (bs : List Nat) : List Nat :=
  match e with
  | .Big => bs
  | .Little => bs.reverse

/-- One pull of the raw sample iterator's `read_func`, by sample format:
the body of the `match self.spec.sample_format` in
`RawDecoder::into_samples` (`src/decoder/raw.rs` lines 87-169).
`f32val`/`f64val` are the IEEE bit decodings (parameters; see header). -/
def rawReadSample (f32val f64val : List Nat → ℚ) (fmt : RawSampleFormat)
    (e : Endian) (r : Reader) : Option (Except DecoderError ℚ) × Reader :=
  match fmt with
  | .Float32 => readStep 4 4 (fun bs => f32val (byteOrder e bs)) r
  | .Float64 => readStep 8 8 (fun bs => f64val (byteOrder e bs)) r
  | .Unsigned24 => readStep 2 3 (u24val e) r
  | .Signed24 => readStep 2 3 (i24val e) r
  | .Unsigned8 =>
      readStep 1 1 (fun bs => f32RoundInt (uintFromBytes e bs) / unsignedMax 1 * 2 - 1) r
  | .Signed8 =>
      readStep 1 1 (fun bs => f32RoundInt (intFromBytes e 1 bs) / signedMax 1) r
  | .Unsigned16 =>
      readStep 2 2 (fun bs => f32RoundInt (uintFromBytes e bs) / unsignedMax 2 * 2 - 1) r
  | .Signed16 =>
      readStep 2 2 (fun bs => f32RoundInt (intFromBytes e 2 bs) / signedMax 2) r
  | .Unsigned32 =>
      readStep 4 4 (fun bs => f32RoundInt (uintFromBytes e bs) / unsignedMax 4 * 2 - 1) r
  | .Signed32 =>
      readStep 4 4 (fun bs => f32RoundInt (intFromBytes e 4 bs) / signedMax 4) r
  | .Unsigned64 =>
      readStep 8 8 (fun bs => f32RoundInt (uintFromBytes e bs) / unsignedMax 8 * 2 - 1) r
  | .Signed64 =>
      readStep 8 8 (fun bs => f32RoundInt (intFromBytes e 8 bs) / signedMax 8) r

/-- The sample sequence produced by pulling a `RawSampleIterator` until it
returns `None`.  Each pull that yields an item consumes at least one byte,
so `data.length + 1 - pos` pulls always reach the end; the fuel makes the
recursion structural. -/
def rawSampleSeqFuel (f32val f64val : List Nat → ℚ) (fmt : RawSampleFormat)
    (e : Endian) : Nat → Reader → List (Except DecoderError ℚ)
  | 0, _ => []
  | fuel + 1, r =>
    match rawReadSample f32val f64val fmt e r with
    | (none, _) => []
    | (some it, r') => it :: rawSampleSeqFuel f32val f64val fmt e fuel r'

/-- All samples yielded by the iterator returned from
`RawDecoder::into_samples`, pulling to exhaustion. -/
def rawSampleSeq (f32val f64val : List Nat → ℚ) (fmt : RawSampleFormat)
    (e : Endian) (r : Reader) : List (Except DecoderError ℚ) :=
  rawSampleSeqFuel f32val f64val fmt e (r.data.length + 1 - r.pos) r

/-- `RawDecoder::new` (`src/decoder/raw.rs` lines 10-23): seek the reader
to `spec.start_offset` (seeking cannot fail in the model). -/
def rawDecoderNew (r : Reader) (spec : RawAudioSpec) : Reader :=
  { r with pos := spec.start_offset }

/-- `RawDecoder::into_samples` (`src/decoder/raw.rs` lines 33-170): the
iterator it returns, observed as the full sample sequence.  The source
captures only `spec.endianness` and matches on `spec.sample_format`;
no other spec field (in particular not `spec.max_frames`) reaches the
iterator. -/
def rawIntoSamples (f32val f64val : List Nat → ℚ) (spec : RawAudioSpec)
    (r : Reader) : List (Except DecoderError ℚ) :=
  rawSampleSeq f32val f64val spec.sample_format spec.endianness r

deriving instance DecidableEq for Except

/-! ## Format dispatch façade (`src/decoder/mod.rs`) -/

/-- The compile-time feature gates of the four non-Raw backends. -/
structure Features where
  wav : Bool
  vorbis : Bool
  mp3 : Bool
  flac : Bool
deriving Repr, DecidableEq

/-- All backends compiled in. -/
def featsAll : Features := ⟨true, true, true, true⟩

/-- Whether the backend for `fmt` is compiled in (the `#[cfg(feature)]`
guards on the arms of `FormatDecoder::try_decode`; the `Raw` arm falls to
the `_ => false` catch-all). -/
def featEnabled (feats : Features) : AudioFormat → Bool
  | .Wav => feats.wav
  | .Vorbis => feats.vorbis
  | .Mp3 => feats.mp3
  | .Flac => feats.flac
  | .Raw => false

/-- The `get_decoder!` extension match (`src/decoder/mod.rs` lines
218-230), shared by `open` and `from_reader`: each recognized extension
either selects its backend or, when the backend's feature is compiled
out, fails with `DisabledExtension { feature, extension }`; any other
extension fails with `UnsupportedExtension`.  Successful construction of
the chosen backend is abstracted to its `AudioFormat` tag. -/
def dispatchExt (feats : Features) (ext : String) : Except DecoderError AudioFormat :=
  if ext = "wav" then
    if feats.wav then .ok .Wav else .error (.DisabledExtension "wav" "wav")
  else if ext = "ogg" then
    if feats.vorbis then .ok .Vorbis else .error (.DisabledExtension "ogg" "vorbis")
  else if ext = "mp3" then
    if feats.mp3 then .ok .Mp3 else .error (.DisabledExtension "mp3" "mp3")
  else if ext = "flac" then
    if feats.flac then .ok .Flac else .error (.DisabledExtension "flac" "flac")
  else .error (.UnsupportedExtension ext)

/-- `FormatDecoder::open` (`src/decoder/mod.rs` lines 234-245): dispatch
on the path's extension (`none` models a path with no extension). -/
def formatDecoderOpen (feats : Features) (ext? : Option String) :
    Except DecoderError AudioFormat :=
  match ext? with
  | some ext => dispatchExt feats ext
  | none => .error .NoExtension

/-- A backend sniffing trial: the per-backend `try_decode` functions are
external to `mod.rs`'s control flow, so they are modelled as an oracle
mapping a reader to a `Result<bool>` plus the reader state they leave
behind. -/
def TrialFn := AudioFormat → Reader → Except DecoderError Bool × Reader

/-- `FormatDecoder::try_decode` (`src/decoder/mod.rs` lines 248-264):
run the backend's trial (or produce `false` outright when the feature is
compiled out), then — only if the trial returned `Ok` — seek back to the
start.  The `?` on the trial returns the error before the seek runs. -/
def tryDecode (feats : Features) (trial : TrialFn) (r : Reader)
    (fmt : AudioFormat) : Except DecoderError Bool × Reader :=
  match (if featEnabled feats fmt then trial fmt r else (.ok false, r)) with
  | (.error e, r') => (.error e, r')
  | (.ok b, r') => (.ok b, r'.seekStart)

/-- The fixed trial order of `FormatDecoder::from_reader`. -/
def sniffOrder : List (AudioFormat × String) :=
  [(.Flac, "flac"), (.Mp3, "mp3"), (.Vorbis, "ogg"), (.Wav, "wav")]

/-- The sniff loop of `FormatDecoder::from_reader` (`src/decoder/mod.rs`
lines 267-289): `filter_map(|(format, ext)| if let Ok(true) =
Self::try_decode(..) { Some(ext) } else { None }).next()` — only
`Ok(true)` selects a backend; `Ok(false)` and every `Err` alike fall to
the `None` branch and the loop continues with the next backend. -/
def sniffExt (feats : Features) (trial : TrialFn) :
    List (AudioFormat × String) → Reader → Option String × Reader
  | [], r => (none, r)
  | (fmt, ext) :: rest, r =>
    let p := tryDecode feats trial r fmt
    match p.1 with
    | .ok true => (some ext, p.2)
    | _ => sniffExt feats trial rest p.2

/-- `FormatDecoder::from_reader`: sniff an extension name
(`unwrap_or_default` turns a failed sniff into `""`), then dispatch it
through `get_decoder!` exactly as `open` does.  Successful construction
of the selected backend is abstracted to its `AudioFormat` tag. -/
def formatDecoderFromReader (feats : Features) (trial : TrialFn) (r : Reader) :
    Except DecoderError AudioFormat :=
  let p := sniffExt feats trial sniffOrder r
  dispatchExt feats (p.1.getD "")

/-! ## MP3 adapter (`src/decoder/mp3.rs`)

The `minimp3` frame decoder collaborator is modelled as the stream of
results its successive `next_frame()` calls return: a list of
`Except Mp3Error Frame`, the end of the list standing for `Eof`. -/

/-- The `minimp3::Error` variants the adapter distinguishes. -/
inductive Mp3Error where
  | SkippedData
  | Eof
  | Io
  | InsufficientData
deriving Repr, DecidableEq

/-- `minimp3::Frame`, restricted to the fields the adapter reads
(`data : Vec<i16>` as integers; `sample_rate` as `u32` — the source's
`as u32` cast of the frame's `i32` field is absorbed here). -/
structure Frame where
  sample_rate : Nat
  channels : Nat
  data : List Int
deriving Repr, DecidableEq

/-- `mp3_err_to_decoder_err` (`src/decoder/mp3.rs` lines 127-136).  The
`_ => unimplemented!()` arm (a panic) is never reached from the call
sites, which handle `SkippedData` and `Eof` first; it is mapped to a
marker error here. -/
def mp3ErrToDecoderErr : Mp3Error → DecoderError
  | .Io => .IOError
  | .InsufficientData => .FormatError "mp3: insufficient data"
  | _ => .FormatError "unreachable: unimplemented!()"

/-- The state of `Mp3SampleIterator`, with the frame stream in place of
the `minimp3` reader. -/
structure Mp3State where
  expected_channels : Nat
  expected_sample_rate : Nat
  cur_frame : Frame
  frame_cursor : Nat
  rest : List (Except Mp3Error Frame)
deriving Repr, DecidableEq

/-- The frame-refill loop inside `Mp3SampleIterator::next`
(`src/decoder/mp3.rs` lines 89-119), entered with `frame_cursor` already
reset to 0: empty frames and `SkippedData` are skipped, `Eof` (an `Eof`
item or the end of the stream) ends the sequence, a non-empty frame with
a mismatched sample rate or channel count yields a `FormatError` without
installing the frame, and an acceptable frame is installed and its first
sample yielded (the fall-through to the yield at lines 121-123). -/
def mp3Refill (exp_ch exp_sr : Nat) (cur : Frame) :
    List (Except Mp3Error Frame) → Option (Except DecoderError ℚ) × Mp3State
  | [] => (none, ⟨exp_ch, exp_sr, cur, 0, []⟩)
  | item :: rest' =>
    match item with
    | .ok frame =>
      if frame.data.length = 0 then mp3Refill exp_ch exp_sr cur rest'
      else if frame.sample_rate ≠ exp_sr then
        (some (.error (.FormatError
          "mp3: streams with variable sample rates are not supported")),
          ⟨exp_ch, exp_sr, cur, 0, rest'⟩)
      else if frame.channels ≠ exp_ch then
        (some (.error (.FormatError
          "mp3: streams with variable channel counts are not supported")),
          ⟨exp_ch, exp_sr, cur, 0, rest'⟩)
      else
        (some (.ok ((frame.data.getD 0 0 : ℚ) / 32767)),
          ⟨exp_ch, exp_sr, frame, 1, rest'⟩)
    | .error .SkippedData => mp3Refill exp_ch exp_sr cur rest'
    | .error .Eof => (none, ⟨exp_ch, exp_sr, cur, 0, rest'⟩)
    | .error e => (some (.error (mp3ErrToDecoderErr e)),
        ⟨exp_ch, exp_sr, cur, 0, rest'⟩)

/-- `Mp3SampleIterator::next` (`src/decoder/mp3.rs` lines 87-124): yield
the next sample of the current frame (`data[cursor] as f32 / i16::MAX`),
refilling from the frame stream when the current frame is exhausted. -/
def mp3Next (s : Mp3State) : Option (Except DecoderError ℚ) × Mp3State :=
  if s.frame_cursor ≥ s.cur_frame.data.length then
    mp3Refill s.expected_channels s.expected_sample_rate s.cur_frame s.rest
  else
    (some (.ok ((s.cur_frame.data.getD s.frame_cursor 0 : ℚ) / 32767)),
      { s with frame_cursor := s.frame_cursor + 1 })

/-- Pull up to `n` items from the MP3 sample iterator, stopping early at
stream end. -/
def mp3Run : Nat → Mp3State → List (Except DecoderError ℚ)
  | 0, _ => []
  | n + 1, s =>
    match mp3Next s with
    | (none, _) => []
    | (some it, s') => it :: mp3Run n s'

/-- `Mp3Decoder` (`src/decoder/mp3.rs` lines 4-9): the eagerly read first
frame is retained alongside the remaining frame stream. -/
structure Mp3Decoder where
  first_frame : Frame
  sample_rate : Nat
  channels : Nat
  rest : List (Except Mp3Error Frame)
deriving Repr, DecidableEq

/-- The header loop of `Mp3Decoder::from_reader` (`src/decoder/mp3.rs`
lines 28-47): pull frames, skipping `SkippedData`, until the first frame
(retained, with its parameters) or a terminal error. -/
def mp3FromReader : List (Except Mp3Error Frame) → Except DecoderError Mp3Decoder
  | [] => .error (.FormatError "mp3: no audio data")
  | .ok f :: rest => .ok ⟨f, f.sample_rate, f.channels, rest⟩
  | .error .SkippedData :: rest => mp3FromReader rest
  | .error .Eof :: _ => .error (.FormatError "mp3: no audio data")
  | .error e :: _ => .error (mp3ErrToDecoderErr e)

/-- `Mp3Decoder::into_samples` (`src/decoder/mp3.rs` lines 61-72): the
initial iterator state — `cur_frame` is the retained first frame, with
the cursor at 0. -/
def mp3IntoSamples (d : Mp3Decoder) : Mp3State :=
  ⟨d.channels, d.sample_rate, d.first_frame, 0, d.rest⟩

/-! ## FLAC adapter (`src/decoder/flac.rs`)

The `claxon` block decoder collaborator is modelled as the stream of
results its successive `read_next_or_eof` calls return: a list of
`Except ClaxonError (List Int)`, the end of the list standing for
`Ok(None)` (end of stream). -/

/-- `claxon::Error` variants. -/
inductive ClaxonError where
  | IoError
  | FormatErr (msg : String)
  | Unsupported (what : String)
deriving Repr, DecidableEq

/-- The state of `FlacSampleIterator` (`src/decoder/flac.rs` lines
50-56), with the block stream in place of the `claxon` reader. -/
structure FlacState where
  cur_block : List Int
  cur_block_len : Nat
  max_sample_value : ℚ
  block_cursor : Nat
  rest : List (Except ClaxonError (List Int))
deriving Repr, DecidableEq

/-- The block-refill part of the loop in `FlacSampleIterator::next`
(`src/decoder/flac.rs` lines 82-91), entered with `block_cursor` reset
to 0 and `cur_block` replaced by an empty buffer: `Ok(Some(block))`
installs the block and the loop yields its first sample (or refills
again if the block is empty); anything else — end of stream or ANY
error — returns `None`. -/
def flacRefill (maxv : ℚ) (old_len : Nat) :
    List (Except ClaxonError (List Int)) → Option (Except DecoderError ℚ) × FlacState
  | [] => (none, ⟨[], old_len, maxv, 0, []⟩)
  | .error _ :: rest' => (none, ⟨[], old_len, maxv, 0, rest'⟩)
  | .ok block :: rest' =>
    if 0 < block.length then
      (some (.ok ((block.getD 0 0 : ℚ) / maxv)),
        ⟨block, block.length, maxv, 1, rest'⟩)
    else flacRefill maxv block.length rest'

/-- `FlacSampleIterator::next` (`src/decoder/flac.rs` lines 74-93):
yield `cur_block[cursor] as f32 / max_sample_value` while the current
block has samples left, otherwise refill from the block stream. -/
def flacNext (s : FlacState) : Option (Except DecoderError ℚ) × FlacState :=
  if s.block_cursor < s.cur_block_len then
    (some (.ok ((s.cur_block.getD s.block_cursor 0 : ℚ) / s.max_sample_value)),
      { s with block_cursor := s.block_cursor + 1 })
  else
    flacRefill s.max_sample_value s.cur_block_len s.rest

/-! ## Concrete trial oracles used in the sniffing counterexamples -/

/-- A trial oracle whose FLAC trial fails with an I/O error (leaving the
cursor at byte 5), whose MP3 trial identifies positively, and whose other
trials reject. -/
def trialIOThenOk : TrialFn
  | .Flac, r => (.error .IOError, { r with pos := 5 })
  | .Mp3, r => (.ok true, { r with pos := 3 })
  | _, r => (.ok false, r)

/-- A trial oracle whose trials always fail with an I/O error, leaving
the cursor at byte 5. -/
def trialAlwaysIOErr : TrialFn :=
  fun _ r => (.error .IOError, { r with pos := 5 })

/-- A trial oracle whose trials always identify positively, leaving the
cursor at byte 7. -/
def trialAlwaysOk : TrialFn :=
  fun _ r => (.ok true, { r with pos := 7 })

/-! ## Theorems settling the specification claims -/

/-- Claim C1.  The claim states that `max_frames = Some(k)` with
`channels = c` terminates the raw sample sequence after exactly `k*c`
samples.  The code does not: `RawDecoder::into_samples` never consults
`spec.max_frames` (its iterator carries no frame counter), so the sample
sequence is identical for every value of `max_frames`, and on a 3-byte
`Unsigned8` source with `channels = 1` and `max_frames = Some(1)` it
emits 3 samples, not `1*1 = 1`. -/
theorem rawIntoSamples_ignores_max_frames :
    (∀ (f32val f64val : List Nat → ℚ) (spec : RawAudioSpec) (mf : Option Nat) (r : Reader),
      rawIntoSamples f32val f64val { spec with max_frames := mf } r =
        rawIntoSamples f32val f64val spec r) ∧
    rawIntoSamples (fun _ => 0) (fun _ => 0)
      ⟨44100, 1, .Unsigned8, .Little, 0, some 1⟩ ⟨[0, 0, 0], 0⟩ =
      [.ok (-1), .ok (-1), .ok (-1)] := by
  constructor
  · intro _ _ _ _ _; rfl
  · simp [rawIntoSamples, rawSampleSeq, rawSampleSeqFuel, rawReadSample, readStep,
      Reader.read, uintFromBytes, uintLE, uintBE, unsignedMax, f32RoundInt,
      f32RoundPos, f32Shift]

/-- Claim C2.  The claim states that a 24-bit pull consumes exactly 3
bytes and decodes them through a zero-padded 4-byte buffer.  The code's
24-bit arms instead read into `buf[1..3]`, a 2-byte slice, so at most 2
bytes are consumed per pull and the `Ok(3)` success arm is unreachable:
on a 4-byte source every 24-bit pull (both formats, both endiannesses)
consumes exactly 2 bytes and yields `Err(IncompleteData)`. -/
theorem raw24_reads_two_bytes :
    (rawReadSample (fun _ => 0) (fun _ => 0) .Unsigned24 .Big ⟨[1, 2, 3, 4], 0⟩ =
      (some (.error .IncompleteData), ⟨[1, 2, 3, 4], 2⟩)) ∧
    (rawReadSample (fun _ => 0) (fun _ => 0) .Unsigned24 .Little ⟨[1, 2, 3, 4], 0⟩ =
      (some (.error .IncompleteData), ⟨[1, 2, 3, 4], 2⟩)) ∧
    (rawReadSample (fun _ => 0) (fun _ => 0) .Signed24 .Big ⟨[1, 2, 3, 4], 0⟩ =
      (some (.error .IncompleteData), ⟨[1, 2, 3, 4], 2⟩)) ∧
    (rawReadSample (fun _ => 0) (fun _ => 0) .Signed24 .Little ⟨[1, 2, 3, 4], 0⟩ =
      (some (.error .IncompleteData), ⟨[1, 2, 3, 4], 2⟩)) := by
  and_intros <;> simp [rawReadSample, readStep, Reader.read]

/-- Claim C3.  The claim states that every in-range unsigned value
decodes to `v / (2^N - 1) * 2 - 1`.  For `Unsigned24` the in-range
maximum `v = 2^24 - 1` (bytes `FF FF FF`) instead yields
`Err(IncompleteData)` after consuming 2 bytes (the short-read bug of the
24-bit arm), and even the arm's unreachable success path divides by
`MAX_U24 = (1 << 24) + ((1 << 24) - 1) = 2^25 - 1`, not by the format's
maximum representable value `2^24 - 1`. -/
theorem unsigned24_never_decodes :
    (rawReadSample (fun _ => 0) (fun _ => 0) .Unsigned24 .Big ⟨[255, 255, 255], 0⟩ =
      (some (.error .IncompleteData), ⟨[255, 255, 255], 2⟩)) ∧
    (rawReadSample (fun _ => 0) (fun _ => 0) .Unsigned24 .Little ⟨[255, 255, 255], 0⟩ =
      (some (.error .IncompleteData), ⟨[255, 255, 255], 2⟩)) ∧
    maxU24 = 2 ^ 25 - 1 := by
  and_intros <;> first
    | simp [rawReadSample, readStep, Reader.read]
    | norm_num [maxU24]

/-- Claim C4, counterexample.  Decoding the minimum signed 8-bit value
`0x80` yields `-128/127` (the signed arms divide by `MAX` without
special-casing the negative headroom), which is not `-1`; and decoding
the maximum positive 24-bit value `7F FF FF` yields `Err(IncompleteData)`
(short-read bug), not `1`. -/
theorem signed_min_not_neg_one :
    (rawReadSample (fun _ => 0) (fun _ => 0) .Signed8 .Big ⟨[128], 0⟩ =
      (some (.ok (-128 / 127)), ⟨[128], 1⟩)) ∧
    ((-128 / 127 : ℚ) ≠ -1) ∧
    (rawReadSample (fun _ => 0) (fun _ => 0) .Signed24 .Big ⟨[127, 255, 255], 0⟩ =
      (some (.error .IncompleteData), ⟨[127, 255, 255], 2⟩)) := by
  and_intros <;>
    · simp [rawReadSample, readStep, Reader.read, intFromBytes, uintFromBytes,
        uintBE, uintLE, toSigned, signedMax, unsignedMax, maxU24, maxI24,
        f32RoundInt, f32RoundPos, f32Shift]
      try norm_num

/-- Claim C4, amended.  For the signed formats of width 8/16/32/64 and
both endiannesses, decoding the maximum positive representable value
yields exactly `1` (at widths 32/64 because both the decoded value
`2^(N-1) - 1` and `MAX_VAL` round to `2^(N-1)` in `f32`); decoding the
minimum signed value yields `-2^(N-1) / (2^(N-1) - 1)` — slightly below
`-1` — at widths 8 and 16, where the casts are exact, but exactly `-1`
at widths 32 and 64, where `MAX_VAL = iN::MAX as f32` rounds up to
`2^(N-1)`; for the unsigned formats of width 8/16/32/64 and both
endiannesses, decoding zero yields exactly `-1`.  (The 24-bit formats
never decode successfully; see the counterexample.) -/
theorem raw_extreme_values_normalize :
    (rawReadSample (fun _ => 0) (fun _ => 0) .Signed8 .Big ⟨[127], 0⟩ =
      (some (.ok 1), ⟨[127], 1⟩)) ∧
    (rawReadSample (fun _ => 0) (fun _ => 0) .Signed8 .Little ⟨[127], 0⟩ =
      (some (.ok 1), ⟨[127], 1⟩)) ∧
    (rawReadSample (fun _ => 0) (fun _ => 0) .Signed8 .Big ⟨[128], 0⟩ =
      (some (.ok (-(2 ^ 7) / (2 ^ 7 - 1))), ⟨[128], 1⟩)) ∧
    (rawReadSample (fun _ => 0) (fun _ => 0) .Signed8 .Little ⟨[128], 0⟩ =
      (some (.ok (-(2 ^ 7) / (2 ^ 7 - 1))), ⟨[128], 1⟩)) ∧
    (rawReadSample (fun _ => 0) (fun _ => 0) .Signed16 .Big ⟨[127, 255], 0⟩ =
      (some (.ok 1), ⟨[127, 255], 2⟩)) ∧
    (rawReadSample (fun _ => 0) (fun _ => 0) .Signed16 .Little ⟨[255, 127], 0⟩ =
      (some (.ok 1), ⟨[255, 127], 2⟩)) ∧
    (rawReadSample (fun _ => 0) (fun _ => 0) .Signed16 .Big ⟨[128, 0], 0⟩ =
      (some (.ok (-(2 ^ 15) / (2 ^ 15 - 1))), ⟨[128, 0], 2⟩)) ∧
    (rawReadSample (fun _ => 0) (fun _ => 0) .Signed16 .Little ⟨[0, 128], 0⟩ =
      (some (.ok (-(2 ^ 15) / (2 ^ 15 - 1))), ⟨[0, 128], 2⟩)) ∧
    (rawReadSample (fun _ => 0) (fun _ => 0) .Signed32 .Big ⟨[127, 255, 255, 255], 0⟩ =
      (some (.ok 1), ⟨[127, 255, 255, 255], 4⟩)) ∧
    (rawReadSample (fun _ => 0) (fun _ => 0) .Signed32 .Little ⟨[255, 255, 255, 127], 0⟩ =
      (some (.ok 1), ⟨[255, 255, 255, 127], 4⟩)) ∧
    (rawReadSample (fun _ => 0) (fun _ => 0) .Signed32 .Big ⟨[128, 0, 0, 0], 0⟩ =
      (some (.ok (-1)), ⟨[128, 0, 0, 0], 4⟩)) ∧
    (rawReadSample (fun _ => 0) (fun _ => 0) .Signed32 .Little ⟨[0, 0, 0, 128], 0⟩ =
      (some (.ok (-1)), ⟨[0, 0, 0, 128], 4⟩)) ∧
    (rawReadSample (fun _ => 0) (fun _ => 0) .Signed64 .Big
        ⟨[127, 255, 255, 255, 255, 255, 255, 255], 0⟩ =
      (some (.ok 1), ⟨[127, 255, 255, 255, 255, 255, 255, 255], 8⟩)) ∧
    (rawReadSample (fun _ => 0) (fun _ => 0) .Signed64 .Little
        ⟨[255, 255, 255, 255, 255, 255, 255, 127], 0⟩ =
      (some (.ok 1), ⟨[255, 255, 255, 255, 255, 255, 255, 127], 8⟩)) ∧
    (rawReadSample (fun _ => 0) (fun _ => 0) .Signed64 .Big
        ⟨[128, 0, 0, 0, 0, 0, 0, 0], 0⟩ =
      (some (.ok (-1)), ⟨[128, 0, 0, 0, 0, 0, 0, 0], 8⟩)) ∧
    (rawReadSample (fun _ => 0) (fun _ => 0) .Signed64 .Little
        ⟨[0, 0, 0, 0, 0, 0, 0, 128], 0⟩ =
      (some (.ok (-1)), ⟨[0, 0, 0, 0, 0, 0, 0, 128], 8⟩)) ∧
    (rawReadSample (fun _ => 0) (fun _ => 0) .Unsigned8 .Big ⟨[0], 0⟩ =
      (some (.ok (-1)), ⟨[0], 1⟩)) ∧
    (rawReadSample (fun _ => 0) (fun _ => 0) .Unsigned8 .Little ⟨[0], 0⟩ =
      (some (.ok (-1)), ⟨[0], 1⟩)) ∧
    (rawReadSample (fun _ => 0) (fun _ => 0) .Unsigned16 .Big ⟨[0, 0], 0⟩ =
      (some (.ok (-1)), ⟨[0, 0], 2⟩)) ∧
    (rawReadSample (fun _ => 0) (fun _ => 0) .Unsigned16 .Little ⟨[0, 0], 0⟩ =
      (some (.ok (-1)), ⟨[0, 0], 2⟩)) ∧
    (rawReadSample (fun _ => 0) (fun _ => 0) .Unsigned32 .Big ⟨[0, 0, 0, 0], 0⟩ =
      (some (.ok (-1)), ⟨[0, 0, 0, 0], 4⟩)) ∧
    (rawReadSample (fun _ => 0) (fun _ => 0) .Unsigned32 .Little ⟨[0, 0, 0, 0], 0⟩ =
      (some (.ok (-1)), ⟨[0, 0, 0, 0], 4⟩)) ∧
    (rawReadSample (fun _ => 0) (fun _ => 0) .Unsigned64 .Big
        ⟨[0, 0, 0, 0, 0, 0, 0, 0], 0⟩ =
      (some (.ok (-1)), ⟨[0, 0, 0, 0, 0, 0, 0, 0], 8⟩)) ∧
    (rawReadSample (fun _ => 0) (fun _ => 0) .Unsigned64 .Little
        ⟨[0, 0, 0, 0, 0, 0, 0, 0], 0⟩ =
      (some (.ok (-1)), ⟨[0, 0, 0, 0, 0, 0, 0, 0], 8⟩)) := by
  and_intros <;>
    · simp [rawReadSample, readStep, Reader.read, intFromBytes, uintFromBytes,
        uintBE, uintLE, toSigned, signedMax, unsignedMax, f32RoundInt,
        f32RoundPos, f32Shift]
      try norm_num

/-- Claim C5, counterexample.  The claim states that a non-`FormatError`
failure of a sniffing trial aborts the whole sniff with that error.  It
does not: the `if let Ok(true)` in `FormatDecoder::from_reader` discards
trial errors, so with an oracle whose FLAC trial fails with an I/O error
and whose MP3 trial succeeds, sniffing still commits to MP3 instead of
aborting with the I/O error. -/
theorem sniffing_continues_past_io_error :
    trialIOThenOk .Flac ⟨[10, 20, 30], 0⟩ = (.error .IOError, ⟨[10, 20, 30], 5⟩) ∧
    formatDecoderFromReader featsAll trialIOThenOk ⟨[10, 20, 30], 0⟩ = .ok .Mp3 := by
  constructor
  · rfl
  · rfl

/-- Claim C5, amended.  During sniffing, a trial that fails with ANY
error (I/O included) is treated exactly like a rejection: the error is
discarded and the sniff loop continues with the next backend, starting
from whatever reader state the failed trial left behind. -/
theorem sniffExt_error_continues (feats : Features) (trial : TrialFn)
    (fmt : AudioFormat) (ext : String) (rest : List (AudioFormat × String))
    (r : Reader) (e : DecoderError) (r' : Reader)
    (hf : featEnabled feats fmt = true)
    (h : trial fmt r = (.error e, r')) :
    sniffExt feats trial ((fmt, ext) :: rest) r = sniffExt feats trial rest r' := by
  simp [sniffExt, tryDecode, hf, h]

/-- Claim C5, witness for the amended theorem. -/
theorem sniffExt_error_continues_witness :
    sniffExt featsAll trialIOThenOk [(.Flac, "flac")] ⟨[10, 20, 30], 0⟩ =
      sniffExt featsAll trialIOThenOk [] ⟨[10, 20, 30], 5⟩ :=
  sniffExt_error_continues featsAll trialIOThenOk .Flac "flac" [] ⟨[10, 20, 30], 0⟩
    .IOError ⟨[10, 20, 30], 5⟩ rfl rfl

/-- Claim C6, counterexample.  The claim states that the reader position
is reset to 0 after EVERY trial.  It is not: in
`FormatDecoder::try_decode` the `?` on the trial returns before the
`seek(SeekFrom::Start(0))` runs, so a trial that fails with an I/O error
leaving the cursor at byte 5 leaves it there. -/
theorem tryDecode_error_skips_reset :
    tryDecode featsAll trialAlwaysIOErr ⟨[9, 9, 9, 9, 9, 9], 0⟩ .Flac =
      (.error .IOError, ⟨[9, 9, 9, 9, 9, 9], 5⟩) ∧ (5 : Nat) ≠ 0 := by
  constructor
  · rfl
  · decide

/-- Claim C6, amended.  After a trial that returns `Ok` (positive or
negative identification) the position is reset to the start; after a
trial that returns an error, the seek is skipped and the reader is left
exactly where the failed trial left it. -/
theorem tryDecode_reset_behavior (feats : Features) (trial : TrialFn)
    (r : Reader) (fmt : AudioFormat) (hf : featEnabled feats fmt = true) :
    (∀ b r', trial fmt r = (.ok b, r') →
      tryDecode feats trial r fmt = (.ok b, r'.seekStart) ∧ (r'.seekStart).pos = 0) ∧
    (∀ e r', trial fmt r = (.error e, r') →
      tryDecode feats trial r fmt = (.error e, r')) := by
  constructor
  · intro b r' h
    exact ⟨by simp [tryDecode, hf, h], rfl⟩
  · intro e r' h
    simp [tryDecode, hf, h]

/-- Claim C6, witness for the amended theorem. -/
theorem tryDecode_reset_behavior_witness :
    tryDecode featsAll trialAlwaysOk ⟨[1, 2], 0⟩ .Mp3 =
      (.ok true, Reader.seekStart ⟨[1, 2], 7⟩) :=
  ((tryDecode_reset_behavior featsAll trialAlwaysOk ⟨[1, 2], 0⟩ .Mp3 rfl).1
    true ⟨[1, 2], 7⟩ rfl).1

/-- Claim C7, counterexample.  The claim states that ANY frame after the
first whose reported sample rate or channel count differs yields a
`FormatError`.  A zero-sample frame is skipped BEFORE the parameter
checks, so a stream whose second frame is empty but reports a different
sample rate and channel count (22050 Hz, 2 ch vs 44100 Hz, 1 ch) decodes
with no error item at all. -/
theorem mp3_empty_mismatched_frame_not_error :
    mp3Run 5 ⟨1, 44100, ⟨44100, 1, [100]⟩, 0,
        [.ok ⟨22050, 2, []⟩, .ok ⟨44100, 1, [7]⟩]⟩ =
      [.ok (100 / 32767), .ok (7 / 32767)] := by
  simp [mp3Run, mp3Next, mp3Refill]

/-- Claim C7, amended.  When the current frame is exhausted: a NON-EMPTY
next frame with a mismatched sample rate yields the variable-sample-rate
`FormatError`, a non-empty frame matching the sample rate but with a
mismatched channel count yields the variable-channel-count
`FormatError`; a frame with zero samples is skipped transparently (even
if its parameters differ, the refill just continues past it); and end of
stream ends the sequence with no error item. -/
theorem mp3Next_mismatch_skip_eof :
    (∀ (s : Mp3State) (frame : Frame) (rest' : List (Except Mp3Error Frame)),
      s.cur_frame.data.length ≤ s.frame_cursor →
      s.rest = .ok frame :: rest' →
      frame.data.length ≠ 0 →
      frame.sample_rate ≠ s.expected_sample_rate →
      (mp3Next s).1 = some (.error (.FormatError
        "mp3: streams with variable sample rates are not supported"))) ∧
    (∀ (s : Mp3State) (frame : Frame) (rest' : List (Except Mp3Error Frame)),
      s.cur_frame.data.length ≤ s.frame_cursor →
      s.rest = .ok frame :: rest' →
      frame.data.length ≠ 0 →
      frame.sample_rate = s.expected_sample_rate →
      frame.channels ≠ s.expected_channels →
      (mp3Next s).1 = some (.error (.FormatError
        "mp3: streams with variable channel counts are not supported"))) ∧
    (∀ (s : Mp3State) (frame : Frame) (rest' : List (Except Mp3Error Frame)),
      s.cur_frame.data.length ≤ s.frame_cursor →
      s.rest = .ok frame :: rest' →
      frame.data.length = 0 →
      mp3Next s = mp3Refill s.expected_channels s.expected_sample_rate s.cur_frame rest') ∧
    (∀ s : Mp3State,
      s.cur_frame.data.length ≤ s.frame_cursor →
      s.rest = [] →
      (mp3Next s).1 = none) := by
  refine ⟨?_, ?_, ?_, ?_⟩
  · intro s frame rest' hc hr hne hsr
    simp [mp3Next, hc, hr, mp3Refill, hne, hsr]
  · intro s frame rest' hc hr hne hsr hch
    simp [mp3Next, hc, hr, mp3Refill, hne, hsr, hch]
  · intro s frame rest' hc hr hne
    simp [mp3Next, hc, hr, mp3Refill, hne]
  · intro s hc hr
    simp [mp3Next, hc, hr, mp3Refill]

/-- Claim C7, witness for the amended theorem. -/
theorem mp3Next_mismatch_skip_eof_witness :
    (mp3Next ⟨1, 44100, ⟨44100, 1, [100]⟩, 1, [.ok ⟨22050, 1, [5]⟩]⟩).1 =
      some (.error (.FormatError
        "mp3: streams with variable sample rates are not supported")) :=
  mp3Next_mismatch_skip_eof.1 ⟨1, 44100, ⟨44100, 1, [100]⟩, 1, [.ok ⟨22050, 1, [5]⟩]⟩
    ⟨22050, 1, [5]⟩ [] (by decide) rfl (by decide) (by decide)

/-- Claim C8.  Extension dispatch: an unrecognized extension `"xyz"`
fails with `UnsupportedExtension("xyz")`; a path with no extension fails
with `NoExtension`; a `"flac"` path with the `flac` feature compiled out
fails with `DisabledExtension { extension: "flac", feature: "flac" }`. -/
theorem formatDecoderOpen_extension_errors :
    formatDecoderOpen featsAll (some "xyz") = .error (.UnsupportedExtension "xyz") ∧
    formatDecoderOpen featsAll none = .error .NoExtension ∧
    formatDecoderOpen ⟨true, true, true, false⟩ (some "flac") =
      .error (.DisabledExtension "flac" "flac") := by
  and_intros <;> rfl

/-- Every item a `flacRefill` pull produces is an `Ok` sample. -/
theorem flacRefill_item_ok (rest : List (Except ClaxonError (List Int))) :
    ∀ (maxv : ℚ) (old : Nat) (it : Except DecoderError ℚ) (s' : FlacState),
      flacRefill maxv old rest = (some it, s') → ∃ q, it = .ok q := by
  induction rest with
  | nil => intro maxv old it s' h; simp [flacRefill] at h
  | cons hd tl ih =>
    intro maxv old it s' h
    match hd with
    | .error e => simp [flacRefill] at h
    | .ok block =>
      by_cases hb : 0 < block.length
      · rw [flacRefill, if_pos hb] at h
        injection h with h1 h2
        exact ⟨_, (Option.some.inj h1).symm⟩
      · rw [flacRefill, if_neg hb] at h
        exact ih _ _ _ _ h

/-- Claim C9.  The FLAC sample iterator never yields an `Err` item:
every pull either produces an `Ok` sample or ends the sequence, and when
the current block is exhausted and the block decoder's next result is an
error (of any kind, not just end of stream), the pull silently returns
`None`. -/
theorem flac_iterator_never_errors :
    (∀ (s : FlacState) (it : Except DecoderError ℚ) (s' : FlacState),
      flacNext s = (some it, s') → ∃ q, it = .ok q) ∧
    (∀ (s : FlacState) (e : ClaxonError) (rest' : List (Except ClaxonError (List Int))),
      s.cur_block_len ≤ s.block_cursor →
      s.rest = .error e :: rest' →
      (flacNext s).1 = none) := by
  constructor
  · intro s it s' h
    by_cases hc : s.block_cursor < s.cur_block_len
    · rw [flacNext, if_pos hc] at h
      injection h with h1 h2
      exact ⟨_, (Option.some.inj h1).symm⟩
    · rw [flacNext, if_neg hc] at h
      exact flacRefill_item_ok _ _ _ _ _ h
  · intro s e rest' hc hr
    simp [flacNext, Nat.not_lt.mpr hc, hr, flacRefill]

/-- Claim C9, witness. -/
theorem flac_iterator_never_errors_witness :
    (flacNext ⟨[], 0, 1, 0, [.error .IoError]⟩).1 = none :=
  flac_iterator_never_errors.2 ⟨[], 0, 1, 0, [.error .IoError]⟩ .IoError []
    (by decide) rfl

/-- While the current frame still has samples, `n` pulls yield exactly
the remaining samples of the current frame, normalized by `i16::MAX`. -/
theorem mp3Run_drains_current (n : Nat) : ∀ s : Mp3State,
    s.frame_cursor + n = s.cur_frame.data.length →
    mp3Run n s = (s.cur_frame.data.drop s.frame_cursor).map
      (fun v => (Except.ok (Int.cast v / 32767) : Except DecoderError ℚ)) := by
  induction n with
  | zero =>
    intro s h
    rw [List.drop_of_length_le (by omega)]
    rfl
  | succ n ih =>
    intro s h
    have hlt : s.frame_cursor < s.cur_frame.data.length := by omega
    have hnext : mp3Next s =
        (some (.ok ((s.cur_frame.data.getD s.frame_cursor 0 : ℚ) / 32767)),
          { s with frame_cursor := s.frame_cursor + 1 }) := by
      rw [mp3Next, if_neg (by omega)]
    have ih' := ih { s with frame_cursor := s.frame_cursor + 1 } (by simp; omega)
    simp only [mp3Run, hnext]
    rw [ih']
    simp only
    rw [List.drop_eq_getElem_cons hlt, List.map_cons, List.getD_eq_getElem _ _ hlt]

/-- Claim C10.  The first frame read eagerly by `Mp3Decoder::from_reader`
is retained in the decoder (`first_frame`) and installed as the iterator's
current frame by `into_samples`, so the first pulls yield exactly that
frame's samples — no audio data is lost between opening and consuming. -/
theorem mp3_first_frame_samples_first (stream : List (Except Mp3Error Frame))
    (d : Mp3Decoder) (h : mp3FromReader stream = .ok d) :
    mp3Run d.first_frame.data.length (mp3IntoSamples d) =
      d.first_frame.data.map
        (fun v => (Except.ok (Int.cast v / 32767) : Except DecoderError ℚ)) := by
  have := mp3Run_drains_current d.first_frame.data.length (mp3IntoSamples d)
    (by simp [mp3IntoSamples])
  simpa [mp3IntoSamples] using this

/-- Claim C10, witness. -/
theorem mp3_first_frame_samples_first_witness :
    mp3Run (Frame.data ⟨44100, 2, [3, 4]⟩).length
        (mp3IntoSamples ⟨⟨44100, 2, [3, 4]⟩, 44100, 2, []⟩) =
      (Frame.data ⟨44100, 2, [3, 4]⟩).map
        (fun v => (Except.ok (Int.cast v / 32767) : Except DecoderError ℚ)) :=
  mp3_first_frame_samples_first [.ok ⟨44100, 2, [3, 4]⟩]
    ⟨⟨44100, 2, [3, 4]⟩, 44100, 2, []⟩ rfl
